import Mathlib

/-!
Shallow embedding of the PyContract repository (ChrisCalderon/PyContract).

The repository has two variants of the same design:
  * src/contract/__init__.py — class Contract (relayed transactions only,
    optional sender, binding via a name split at the first parenthesis with a
    hasattr collision check);
  * src/contract.py — classes BaseContract, LocalContract (relayed) and
    PublicContract (self-signed raw transactions), binding via plain setattr
    without a collision check.

External collaborators (the ABI translator, the RPC client, the signer and
RLP encoder, privtoaddr) are modelled as records of functions supplied as
parameters, exactly as the spec treats them: opaque interfaces the core
depends on.  Stateful RPC traffic is made observable through an explicit
event list each dispatch function returns alongside its result.
-/

/-- A Python value as far as this module observes them: strings, ints, byte
strings, tuples/lists, and JSON-RPC response dictionaries. -/
inductive PyValue where
  | str (s : String)
  | int (n : Int)
  | bytes (b : List Nat)
  | list (vs : List PyValue)
  | dict (kvs : List (String × PyValue))

/-- A JSON-RPC response as the code inspects it: an optional result field and
an optional error field (Python: membership of the keys in the dict). -/
structure RpcResponse where
  result : Option String
  error : Option String
deriving DecidableEq

/-- The Python exceptions the embedded code can raise.  ContractError is the
module's own exception class; the others are built-in exception types that the
code can hit. -/
inductive PyError where
  | contractError (msg : String)
  | keyError (key : String)
  | attributeError (attr : String)
  | typeError (msg : String)
  | valueError (msg : String)
  | recursionError
deriving DecidableEq

/-- Boolean success test for an embedded fallible computation. -/
def exceptIsOk {α : Type} : Except PyError α → Bool
  | .ok _ => true
  | .error _ => false

/-- Hexadecimal digit test, matching the character class [0-9a-fA-F]. -/
def hexDigit (c : Char) : Bool :=
  c.isDigit || (Char.ofNat 97 ≤ c && c ≤ Char.ofNat 102) ||
    (Char.ofNat 65 ≤ c && c ≤ Char.ofNat 70)

/-- Value of one hexadecimal digit. -/
def hexVal (c : Char) : Option Nat :=
  if c.isDigit then some (c.toNat - 48)
  else if Char.ofNat 97 ≤ c && c ≤ Char.ofNat 102 then some (c.toNat - 87)
  else if Char.ofNat 65 ≤ c && c ≤ Char.ofNat 70 then some (c.toNat - 55)
  else none

/-- Python2 str.decode(hex-codec) over a character list: consumes pairs of hex
digits into bytes; an odd-length or non-hex input raises TypeError (modelled
as none). -/
def hexPairs : List Char → Option (List Nat)
  | [] => some []
  | c1 :: c2 :: rest =>
      match hexVal c1, hexVal c2, hexPairs rest with
      | some h1, some h2, some tail => some ((16 * h1 + h2) :: tail)
      | _, _, _ => none
  | [_] => none

/-- Python2 str.decode(hex-codec) on a string. -/
def pyHexDecode (s : String) : Option (List Nat) :=
  hexPairs s.data

/-- One byte rendered as two lowercase hex digits (str.encode(hex-codec)). -/
def byteToHex (n : Nat) : List Char :=
  [Nat.digitChar (n / 16 % 16), Nat.digitChar (n % 16)]

/-- Byte string rendered in lowercase hex (Python str.encode(hex-codec)). -/
def bytesToHex (b : List Nat) : String :=
  String.mk (b.flatMap byteToHex)

/-- Python hex() of a nonnegative int: 0x followed by lowercase hex digits. -/
def pyHexNat (n : Nat) : String :=
  "0x" ++ String.mk (Nat.toDigits 16 n)

/-- Python s.lstrip(0x-charset): drops every leading character that is either
the digit 0 or the letter x (a character set, not a prefix — so it also eats
leading zero digits of the payload). -/
def pyLstrip0x (s : String) : String :=
  String.mk (s.data.dropWhile (fun c => c == '0' || c == 'x'))

/-- Python int(hx[2:], 16) as used by _hex2int in src/contract.py: drop the
first two characters and parse the rest as hex; an empty or non-hex remainder
raises ValueError (modelled as none). -/
def pyHex2Int (s : String) : Option Nat :=
  match (s.data.drop 2) with
  | [] => none
  | ds => (ds.foldl (fun acc c => acc.bind fun a => (hexVal c).map (fun v => 16 * a + v))
            (some 0))

/-- Core of the regex 0x[0-9a-fA-F]-40-times anchored at both ends: the
character list is 0, x, then exactly 40 hex digits. -/
def ethAddrCore : List Char → Bool
  | '0' :: 'x' :: rest => rest.length == 40 && rest.all hexDigit
  | _ => false

/-- ETH_ADDR.match(s): Python re anchors the dollar at the end of the string
or just before one trailing newline, so both forms are accepted. -/
def ethAddrMatch (s : String) : Bool :=
  ethAddrCore s.data ||
    (match s.data.getLast? with
     | some c => c == '\n' && ethAddrCore s.data.dropLast
     | none => false)

/-- Python repr of a plain string without quotes or escapes in it (the only
shape the error formats are fed in this module): the string between
apostrophes. -/
def pyRepr (s : String) : String :=
  "\x27" ++ s ++ "\x27"

/-- The err_fmt message of both variants, applied to a field name and the
offending value: Invalid field address, must be 40 digit hex starting with
0x, then the repr of the value. -/
def errFmt (field : String) (value : String) : String :=
  "Invalid " ++ field ++ " address, must be 40 digit hex starting with \x270x\x27: "
    ++ pyRepr value

/-- One record of the interface description: item[type-key] and
item[name-key] are the only fields the binding code reads. -/
structure InterfaceItem where
  type : String
  name : String
deriving DecidableEq

/-- A transaction record handed to the RPC client (the Python dicts built by
both variants).  data is a string (hex, Contract variant) or raw bytes
(BaseContract variant); absent keys are none. -/
structure TxRecord where
  toAddr : String
  gas : String
  fromAddr : Option String
  data : Option PyValue

/-- The unsigned raw transaction built by PublicContract._send_dispatcher:
Transaction(nonce, gasprice, startgas, to, value, data). -/
structure RawTx where
  nonce : Nat
  gasprice : Nat
  startgas : Nat
  toAddr : List Nat
  value : Nat
  data : List Nat

/-- The RPC client collaborator: each method maps a request to the node's
response. -/
structure RpcClient where
  eth_call : TxRecord → String → RpcResponse
  eth_sendTransaction : TxRecord → RpcResponse
  eth_getTransactionCount : String → RpcResponse
  eth_sendRawTransaction : String → RpcResponse

/-- The ABI translator collaborator: encode_function_call may raise on an
arity or type mismatch (modelled as Except); decode maps a function name and
returned bytes to the decoded value(s). -/
structure Translator where
  encode_function_call : String → List Int → Except PyError (List Nat)
  decode : String → List Nat → PyValue

/-- The signing and serialization collaborators used by PublicContract:
tx.sign(private_key) produces an opaque signed object (modelled as bytes) and
rlp.encode serializes it. -/
structure Signer where
  sign : RawTx → List Nat → List Nat
  rlpEncode : List Nat → List Nat

/-- Observable network and cryptographic activity, in program order. -/
inductive RpcEvent where
  | ethCall (tx : TxRecord) (blk : String)
  | ethSendTransaction (tx : TxRecord)
  | ethGetTransactionCount (addr : String)
  | ethSendRawTransaction (raw : String)
  | buildTx (tx : RawTx)
  | signTx (tx : RawTx)
  | rlpSerialize (raw : String)

/-! ## Variant 1: class Contract in src/contract/__init__.py -/

/-- MAX_GAS of src/contract/__init__.py: int(math.pi times 1.5 times 1e6).
math.pi is the IEEE double 884279719003555 / 2 to the 48; the float products
stay within 2 to the minus 20 of the exact rationals, far from the next
integer below or above, so the int() truncation equals this rational floor,
computed here with exact natural division. -/
def MAX_GAS_init : Nat := 884279719003555 * 3 * 1000000 / 2 ^ 49

/-- MAX_GAS of src/contract.py: the hexadecimal literal 0x4712388. -/
def MAX_GAS_py : Nat := 0x4712388

/-- Attributes already present on a Contract instance when the binding loop
runs and visible to hasattr: the instance attributes assigned earlier in
Contract.__init__ plus the methods of the class itself.  (Attributes
inherited from object are dunder names, which no ABI function name in play
here can collide with, and are omitted.) -/
def contractAttrs : List String :=
  ["translator", "rpc_client", "common_params", "_call", "_send", "_check_response"]

/-- The python compatible name of a function entry: name.split at the first
opening parenthesis, keeping the part before it. -/
def pySplitName (name : String) : String :=
  String.mk (name.data.takeWhile (fun c => c != '('))

/-- The error Contract.__init__ raises when a bound name collides with an
existing attribute of the handle. -/
def polymorphismError : PyError := .contractError "Polymorphism not supported!"

/-- The binding loop of Contract.__init__: walk the interface, and for each
entry of type function compute its python compatible name, raise if the
handle already has an attribute of that name, otherwise bind it (extending
the attribute list). -/
def bindLoop : List String → List InterfaceItem → Except PyError (List String)
  | attrs, [] => .ok attrs
  | attrs, item :: rest =>
      if item.type == "function" then
        let n := pySplitName item.name
        if attrs.contains n then .error polymorphismError
        else bindLoop (attrs ++ [n]) rest
      else bindLoop attrs rest

/-- The bound names the Contract variant derives from an interface, in order:
one per entry of type function, each split at the first parenthesis. -/
def boundFuncNames (iface : List InterfaceItem) : List String :=
  (iface.filter (fun it => it.type == "function")).map (fun it => pySplitName it.name)

/-- The state a successfully constructed Contract carries that the dispatch
paths read: common_params (to, gas, optional from) and the full attribute
list after binding (initial attributes followed by one bound operation per
function entry). -/
structure ContractHandle where
  commonParams : TxRecord
  boundNames : List String

/-- Contract.__init__ of src/contract/__init__.py: validate the contract
address against ETH_ADDR, build common_params from address and hex(gas), then
validate the sender only if one was supplied (None skips validation and adds
no from key), then run the binding loop over the interface. -/
def contractInit (address : String) (interface : List InterfaceItem)
    (sender : Option String) (gas : Nat) : Except PyError ContractHandle :=
  if ethAddrMatch address then
    match (match sender with
           | none => Except.ok (none : Option String)
           | some s =>
               if ethAddrMatch s then Except.ok (some s)
               else Except.error (PyError.contractError (errFmt "sender" s))) with
    | .error e => .error e
    | .ok sopt =>
        match bindLoop contractAttrs interface with
        | .error e => .error e
        | .ok names =>
            .ok { commonParams :=
                    { toAddr := address, gas := pyHexNat gas, fromAddr := sopt, data := none },
                  boundNames := names }
  else .error (.contractError (errFmt "contract" address))

/-- Python repr of an optional string (a missing dictionary entry prints
nothing here; present entries print quoted), used only to render responses
into the ContractError message. -/
def reprOptStr : Option String → String
  | none => "None"
  | some s => pyRepr s

/-- Rendering of the response dict into the error response message. -/
def reprResponse (r : RpcResponse) : String :=
  "\x7bresult: " ++ reprOptStr r.result ++ ", error: " ++ reprOptStr r.error ++ "\x7d"

/-- Contract._check_response: raise ContractError carrying the response when
the response dictionary has an error key. -/
def contract_check_response (r : RpcResponse) : Except PyError Unit :=
  if r.error.isSome then
    .error (.contractError ("error response from RPC server: " ++ reprResponse r))
  else .ok ()

/-- The per-call transaction record of the Contract variant: a copy of
common_params with the data key set to 0x followed by the hex encoding of the
ABI-encoded call. -/
def contractTxFor (h : ContractHandle) (data : List Nat) : TxRecord :=
  { toAddr := h.commonParams.toAddr, gas := h.commonParams.gas,
    fromAddr := h.commonParams.fromAddr,
    data := some (.str ("0x" ++ bytesToHex data)) }

/-- Contract._call: one eth_call round trip, response check, then strip the
result with lstrip(0x-charset), hex-decode it and hand the bytes to
translator.decode. -/
def contract_call (tr : Translator) (rpc : RpcClient) (funcName : String)
    (tx : TxRecord) : Except PyError PyValue × List RpcEvent :=
  let resp := rpc.eth_call tx "latest"
  let ev := [RpcEvent.ethCall tx "latest"]
  match contract_check_response resp with
  | .error e => (.error e, ev)
  | .ok _ =>
      match resp.result with
      | none => (.error (.keyError "result"), ev)
      | some r =>
          match pyHexDecode (pyLstrip0x r) with
          | none => (.error (.typeError "Non-hexadecimal digit found"), ev)
          | some raw => (.ok (tr.decode funcName raw), ev)

/-- Contract._send: one eth_sendTransaction round trip, response check, then
return the result field of the response. -/
def contract_send (rpc : RpcClient) (tx : TxRecord) :
    Except PyError PyValue × List RpcEvent :=
  let resp := rpc.eth_sendTransaction tx
  let ev := [RpcEvent.ethSendTransaction tx]
  match contract_check_response resp with
  | .error e => (.error e, ev)
  | .ok _ =>
      match resp.result with
      | none => (.error (.keyError "result"), ev)
      | some r => (.ok (.str r), ev)

/-- The proxy closure the Contract variant binds for each function: copy
common_params, ABI-encode the arguments (any failure propagates before any
network activity), store the hex data, then dispatch on the call keyword to
_call or _send. -/
def contract_proxy (tr : Translator) (rpc : RpcClient) (h : ContractHandle)
    (pn : String) (args : List Int) (call : Bool) :
    Except PyError PyValue × List RpcEvent :=
  match tr.encode_function_call pn args with
  | .error e => (.error e, [])
  | .ok data =>
      if call then contract_call tr rpc pn (contractTxFor h data)
      else contract_send rpc (contractTxFor h data)

/-! ## Variant 2: BaseContract / LocalContract / PublicContract in
src/contract.py -/

/-- The binding loop of BaseContract.__init__: plain setattr for every entry
of type function under its full (unsplit) name, with no collision check — a
duplicate silently overwrites the earlier binding, leaving the attribute set
unchanged. -/
def baseBind : List String → List InterfaceItem → List String
  | attrs, [] => attrs
  | attrs, item :: rest =>
      if item.type == "function" then
        baseBind (if attrs.contains item.name then attrs else attrs ++ [item.name]) rest
      else baseBind attrs rest

/-- The state a successfully constructed BaseContract carries. -/
structure BaseHandle where
  address : String
  sender : String
  defaultGas : Nat
  defaultGasHex : String
  boundNames : List String

/-- BaseContract.__init__ of src/contract.py: validate contract address and
sender (both mandatory), record them with the gas default and its hex form,
then bind one proxy per function entry with no duplicate check. -/
def baseContractInit (address : String) (interface : List InterfaceItem)
    (sender : String) (gas : Nat) : Except PyError BaseHandle :=
  if ethAddrMatch address then
    if ethAddrMatch sender then
      .ok { address := address, sender := sender, defaultGas := gas,
            defaultGasHex := pyHexNat gas, boundNames := baseBind [] interface }
    else .error (.contractError (errFmt "sender" sender))
  else .error (.contractError (errFmt "contract" address))

/-- The transaction dict both BaseContract._call_dispatcher and
LocalContract._send_dispatcher build: to, from, raw data bytes, gas. -/
def baseTxFor (h : BaseHandle) (data : List Nat) : TxRecord :=
  { toAddr := h.address, gas := h.defaultGasHex, fromAddr := some h.sender,
    data := some (.bytes data) }

/-- BaseContract._call_dispatcher: one eth_call round trip, NO response
check, subscript the result key (KeyError if absent), lstrip and hex-decode
it, and hand the bytes to translator.decode. -/
def base_call_dispatcher (tr : Translator) (rpc : RpcClient) (h : BaseHandle)
    (funcName : String) (data : List Nat) :
    Except PyError PyValue × List RpcEvent :=
  let resp := rpc.eth_call (baseTxFor h data) "latest"
  let ev := [RpcEvent.ethCall (baseTxFor h data) "latest"]
  match resp.result with
  | none => (.error (.keyError "result"), ev)
  | some r =>
      match pyHexDecode (pyLstrip0x r) with
      | none => (.error (.typeError "Non-hexadecimal digit found"), ev)
      | some raw => (.ok (tr.decode funcName raw), ev)

/-- The whole response dict as the Python value LocalContract's send path
returns to the caller. -/
def respToValue (r : RpcResponse) : PyValue :=
  .dict ((match r.result with
          | none => []
          | some s => [("result", PyValue.str s)]) ++
         (match r.error with
          | none => []
          | some s => [("error", PyValue.str s)]))

/-- LocalContract._send_dispatcher: one eth_sendTransaction round trip and
return the WHOLE response object, unchecked and unwrapped. -/
def local_send_dispatcher (rpc : RpcClient) (h : BaseHandle) (data : List Nat) :
    Except PyError PyValue × List RpcEvent :=
  let resp := rpc.eth_sendTransaction (baseTxFor h data)
  (.ok (respToValue resp), [RpcEvent.ethSendTransaction (baseTxFor h data)])

/-- The private_key argument of PublicContract.__init__ as supplied by the
caller: a Python int/long or a byte string. -/
inductive PrivKeyInput where
  | intKey (n : Nat)
  | strKey (b : List Nat)

/-- str.rjust(32, zero-byte): pad on the left to 32 bytes. -/
def rjustBytes (w : Nat) (b : List Nat) : List Nat :=
  List.replicate (w - b.length) 0 ++ b

/-- Key normalization of PublicContract.__init__: an int key is rendered as
hex digits, hex-decoded (an odd digit count raises TypeError) and padded to
32 bytes; a byte-string key must be exactly 32 bytes or ContractError is
raised. -/
def normalizeKey : PrivKeyInput → Except PyError (List Nat)
  | .strKey b =>
      if b.length == 32 then .ok b
      else .error (.contractError "private key bust be 32 byte bin encoded!")
  | .intKey n =>
      match hexPairs (Nat.toDigits 16 n) with
      | none => .error (.typeError "Odd-length string")
      | some b => .ok (rjustBytes 32 b)

/-- The state a successfully constructed PublicContract carries beyond its
BaseContract part: the binary contract address (address.lstrip(0x-charset)
hex-decoded), the private key bytes, and the fixed gas price of 20 shannon
(20 times 10 to the 9 wei). -/
structure PublicHandle where
  base : BaseHandle
  addressBin : List Nat
  privateKey : List Nat
  gasPrice : Nat

/-- PublicContract.__init__ of src/contract.py: normalize the key, derive the
sender address from it with privtoaddr, run BaseContract.__init__, then store
the binary address, the key, and the fixed gas price. -/
def publicContractInit (privtoaddr : List Nat → List Nat) (address : String)
    (interface : List InterfaceItem) (privateKey : PrivKeyInput) (gas : Nat) :
    Except PyError PublicHandle :=
  match normalizeKey privateKey with
  | .error e => .error e
  | .ok key =>
      let sender := "0x" ++ bytesToHex (privtoaddr key)
      match baseContractInit address interface sender gas with
      | .error e => .error e
      | .ok b =>
          match pyHexDecode (pyLstrip0x address) with
          | none => .error (.typeError "Odd-length string")
          | some bin =>
              .ok { base := b, addressBin := bin, privateKey := key,
                    gasPrice := 20 * 1000000000 }

/-- PublicContract._send_dispatcher: fetch the sender's transaction count,
parse it, build Transaction(nonce, gas_price, default_gas, address_bin, 0,
data), sign it with the private key, RLP-serialize it to hex — and then
evaluate self.eth_sendRawTransaction, an attribute lookup on the CONTRACT
HANDLE, not on the RPC client.  Unless the ABI happens to bind a function of
that name (in which case the looked-up proxy unconditionally re-enters this
dispatcher and exhausts the interpreter recursion limit), the lookup raises
AttributeError and the raw transaction is never broadcast. -/
def public_send_dispatcher (rpc : RpcClient) (signer : Signer)
    (h : PublicHandle) (data : List Nat) :
    Except PyError PyValue × List RpcEvent :=
  let resp := rpc.eth_getTransactionCount h.base.sender
  let ev0 := [RpcEvent.ethGetTransactionCount h.base.sender]
  match resp.result with
  | none => (.error (.keyError "result"), ev0)
  | some hx =>
      match pyHex2Int hx with
      | none => (.error (.valueError hx), ev0)
      | some nonce =>
          let tx : RawTx :=
            { nonce := nonce, gasprice := h.gasPrice, startgas := h.base.defaultGas,
              toAddr := h.addressBin, value := 0, data := data }
          let signed := signer.sign tx h.privateKey
          let rawTx := "0x" ++ bytesToHex (signer.rlpEncode signed)
          let ev := ev0 ++ [RpcEvent.buildTx tx, RpcEvent.signTx tx,
                            RpcEvent.rlpSerialize rawTx]
          if h.base.boundNames.contains "eth_sendRawTransaction" then
            (.error .recursionError, ev)
          else
            (.error (.attributeError "eth_sendRawTransaction"), ev)

/-- The proxy closure BaseContract binds for each function: ABI-encode the
arguments first (any failure propagates before any network activity), then
dispatch on the call keyword — here with LocalContract's send dispatcher. -/
def local_proxy (tr : Translator) (rpc : RpcClient) (h : BaseHandle)
    (funcName : String) (args : List Int) (call : Bool) :
    Except PyError PyValue × List RpcEvent :=
  match tr.encode_function_call funcName args with
  | .error e => (.error e, [])
  | .ok data =>
      if call then base_call_dispatcher tr rpc h funcName data
      else local_send_dispatcher rpc h data

/-- The same proxy closure with PublicContract's send dispatcher. -/
def public_proxy (tr : Translator) (rpc : RpcClient) (signer : Signer)
    (h : PublicHandle) (funcName : String) (args : List Int) (call : Bool) :
    Except PyError PyValue × List RpcEvent :=
  match tr.encode_function_call funcName args with
  | .error e => (.error e, [])
  | .ok data =>
      if call then base_call_dispatcher tr rpc h.base funcName data
      else public_send_dispatcher rpc signer h data

/-! ## Concrete fixtures: stub collaborators and handles used by witnesses
and counterexamples -/

/-- A valid contract address: 0x followed by forty a digits. -/
def addrA : String := "0xaaaaaaaaaaaaaaaaaaaaaaaaaaaaaaaaaaaaaaaa"

/-- A valid sender address: 0x followed by forty b digits. -/
def addrB : String := "0xbbbbbbbbbbbbbbbbbbbbbbbbbbbbbbbbbbbbbbbb"

/-- Forty hex digits with no 0x marker. -/
def bareHex40 : String := "aaaaaaaaaaaaaaaaaaaaaaaaaaaaaaaaaaaaaaaa"

/-- A stub ABI translator whose encoding always succeeds. -/
def stubTranslator : Translator :=
  { encode_function_call := fun _ args => .ok (args.map Int.toNat)
    decode := fun n raw => .list [.str n, .bytes raw] }

/-- A stub ABI translator that rejects every argument list, standing for an
arity or type mismatch. -/
def failTranslator : Translator :=
  { encode_function_call := fun _ _ => .error (.typeError "Error encoding args")
    decode := fun _ _ => .int 0 }

/-- A stub node that answers every request successfully. -/
def okRpc : RpcClient :=
  { eth_call := fun _ _ => ⟨some "0xff01", none⟩
    eth_sendTransaction := fun _ => ⟨some "0xabc", none⟩
    eth_getTransactionCount := fun _ => ⟨some "0x5", none⟩
    eth_sendRawTransaction := fun _ => ⟨some "0xdef", none⟩ }

/-- A stub node whose every response carries an error field (and also a
result field, so a path that skips validation can still decode). -/
def errRpc : RpcClient :=
  { eth_call := fun _ _ => ⟨some "0xff01", some "boom"⟩
    eth_sendTransaction := fun _ => ⟨some "0xabc", some "boom"⟩
    eth_getTransactionCount := fun _ => ⟨some "0x5", some "boom"⟩
    eth_sendRawTransaction := fun _ => ⟨some "0xdef", some "boom"⟩ }

/-- A stub signer and RLP encoder with deterministic output. -/
def stubSigner : Signer :=
  { sign := fun tx _ => tx.data ++ [9], rlpEncode := fun b => b }

/-- A one-function interface. -/
def fooIface : List InterfaceItem := [⟨"function", "foo"⟩]

/-- The Contract handle produced for addrA, fooIface, no sender, gas 100. -/
def stubContractHandle : ContractHandle :=
  { commonParams := { toAddr := addrA, gas := pyHexNat 100, fromAddr := none, data := none }
    boundNames := contractAttrs ++ ["foo"] }

/-- The BaseContract handle produced for addrA, fooIface, addrB, gas 100. -/
def stubBaseHandle : BaseHandle :=
  { address := addrA, sender := addrB, defaultGas := 100,
    defaultGasHex := pyHexNat 100, boundNames := ["foo"] }

/-- A stub address derivation mapping every key to the twenty bytes 0xbb,
so the derived sender address is addrB. -/
def stubPrivtoaddr : List Nat → List Nat := fun _ => List.replicate 20 187

/-- The PublicContract handle produced for addrA, fooIface, a 32-byte key of
ones, gas 100, under stubPrivtoaddr. -/
def stubPublicHandle : PublicHandle :=
  { base := stubBaseHandle, addressBin := List.replicate 20 170,
    privateKey := List.replicate 32 1, gasPrice := 20000000000 }

/-- The raw transaction PublicContract builds for nonce 5, gas 100, target
addrA, payload byte 1. -/
def rawTxFoo : RawTx :=
  { nonce := 5, gasprice := 20000000000, startgas := 100,
    toAddr := List.replicate 20 170, value := 0, data := [1] }

/-! ## Helper lemmas about the binding loop of the Contract variant -/

theorem boundFuncNames_nil : boundFuncNames [] = [] := rfl

theorem boundFuncNames_cons (it : InterfaceItem) (rest : List InterfaceItem) :
    boundFuncNames (it :: rest) =
      if it.type == "function" then pySplitName it.name :: boundFuncNames rest
      else boundFuncNames rest := by
  by_cases h : it.type == "function" <;>
    simp [boundFuncNames, List.filter_cons, h]

theorem bindLoop_ok_shape : ∀ (items : List InterfaceItem) (attrs res : List String),
    bindLoop attrs items = .ok res → res = attrs ++ boundFuncNames items := by
  intro items
  induction items with
  | nil =>
      intro attrs res h
      simp only [bindLoop] at h
      cases h
      simp [boundFuncNames_nil]
  | cons it rest ih =>
      intro attrs res h
      rw [boundFuncNames_cons]
      by_cases hty : it.type == "function"
      · simp only [bindLoop, hty, if_true] at h
        by_cases hc : attrs.contains (pySplitName it.name)
        · rw [if_pos hc] at h
          cases h
        · rw [if_neg hc] at h
          have hr := ih _ _ h
          simp [hr, hty]
      · simp only [bindLoop, hty, if_false] at h
        have hr := ih _ _ h
        simp [hr, hty]

theorem bindLoop_nodup : ∀ (items : List InterfaceItem) (attrs : List String),
    (attrs ++ boundFuncNames items).Nodup →
    bindLoop attrs items = .ok (attrs ++ boundFuncNames items) := by
  intro items
  induction items with
  | nil =>
      intro attrs _
      simp [bindLoop, boundFuncNames_nil]
  | cons it rest ih =>
      intro attrs hnd
      rw [boundFuncNames_cons] at hnd ⊢
      by_cases hty : it.type == "function"
      · rw [if_pos hty] at hnd ⊢
        have hmem : pySplitName it.name ∉ attrs := by
          intro hmem
          have := List.disjoint_of_nodup_append hnd hmem
          simp at this
        have hc : attrs.contains (pySplitName it.name) = false := by
          simp [hmem]
        simp only [bindLoop, hty, if_true, hc, Bool.false_eq_true, if_false]
        have hassoc : attrs ++ pySplitName it.name :: boundFuncNames rest =
            (attrs ++ [pySplitName it.name]) ++ boundFuncNames rest := by simp
        rw [hassoc] at hnd ⊢
        exact ih _ hnd
      · rw [if_neg hty] at hnd ⊢
        simp only [bindLoop, hty, if_false]
        exact ih _ hnd

theorem bindLoop_dup : ∀ (items : List InterfaceItem) (attrs : List String),
    attrs.Nodup → ¬ (attrs ++ boundFuncNames items).Nodup →
    bindLoop attrs items = .error polymorphismError := by
  intro items
  induction items with
  | nil =>
      intro attrs ha hnd
      rw [boundFuncNames_nil] at hnd
      simp at hnd
      exact absurd ha hnd
  | cons it rest ih =>
      intro attrs ha hnd
      rw [boundFuncNames_cons] at hnd
      by_cases hty : it.type == "function"
      · rw [if_pos hty] at hnd
        simp only [bindLoop, hty, if_true]
        by_cases hc : attrs.contains (pySplitName it.name)
        · rw [if_pos hc]
        · rw [if_neg hc]
          have hmem : pySplitName it.name ∉ attrs := by
            intro hmem
            simp [hmem] at hc
          have ha' : (attrs ++ [pySplitName it.name]).Nodup := by
            rw [List.nodup_append]
            refine ⟨ha, List.nodup_singleton _, ?_⟩
            intro x hx hx'
            simp at hx'
            subst hx'
            exact hmem hx
          have hnd' : ¬ ((attrs ++ [pySplitName it.name]) ++ boundFuncNames rest).Nodup := by
            intro hcontra
            apply hnd
            have : (attrs ++ [pySplitName it.name]) ++ boundFuncNames rest =
                attrs ++ pySplitName it.name :: boundFuncNames rest := by simp
            rw [this] at hcontra
            exact hcontra
          exact ih _ ha' hnd'
      · rw [if_neg hty] at hnd
        simp only [bindLoop, hty, if_false]
        exact ih _ ha hnd

theorem mem_boundFuncNames {it : InterfaceItem} {iface : List InterfaceItem}
    (hmem : it ∈ iface) (hty : it.type = "function") :
    pySplitName it.name ∈ boundFuncNames iface := by
  simp only [boundFuncNames, List.mem_map]
  exact ⟨it, List.mem_filter.2 ⟨hmem, by simp [hty]⟩, rfl⟩

theorem contractInit_none_eq (addr : String) (iface : List InterfaceItem)
    (gas : Nat) (ha : ethAddrMatch addr = true) :
    contractInit addr iface none gas =
      match bindLoop contractAttrs iface with
      | .error e => .error e
      | .ok names =>
          .ok { commonParams := { toAddr := addr, gas := pyHexNat gas,
                                  fromAddr := none, data := none },
                boundNames := names } := by
  simp only [contractInit, ha, if_true]

theorem contractInit_some_eq (addr s : String) (iface : List InterfaceItem)
    (gas : Nat) (ha : ethAddrMatch addr = true) (hs : ethAddrMatch s = true) :
    contractInit addr iface (some s) gas =
      match bindLoop contractAttrs iface with
      | .error e => .error e
      | .ok names =>
          .ok { commonParams := { toAddr := addr, gas := pyHexNat gas,
                                  fromAddr := some s, data := none },
                boundNames := names } := by
  simp only [contractInit, ha, hs, if_true]

theorem contractInit_bad_sender (addr s : String) (iface : List InterfaceItem)
    (gas : Nat) (ha : ethAddrMatch addr = true) (hs : ethAddrMatch s = false) :
    contractInit addr iface (some s) gas =
      .error (.contractError (errFmt "sender" s)) := by
  simp only [contractInit, ha, hs, if_true, Bool.false_eq_true, if_false]

theorem contractInit_bad_addr (addr : String) (iface : List InterfaceItem)
    (sender : Option String) (gas : Nat) (ha : ethAddrMatch addr = false) :
    contractInit addr iface sender gas =
      .error (.contractError (errFmt "contract" addr)) := by
  simp only [contractInit, ha, Bool.false_eq_true, if_false]

theorem contractAttrs_nodup : (contractAttrs : List String).Nodup := by decide

/-- Claim C8: the default gas constants of the two variants.  The Contract
variant's MAX_GAS, int(math.pi times 1.5 times 1e6), is 4712388 as the claim
says; but the contract.py variant's MAX_GAS is the HEX literal 0x4712388 =
74,523,528 — the decimal digits 4712388 mistakenly given a 0x prefix — which
is nowhere near the claimed 4,712,388 or 4,712,968. -/
theorem C8_thm :
    MAX_GAS_init = 4712388 ∧ MAX_GAS_py = 74523528 ∧ 15 * 4712968 < MAX_GAS_py := by
  refine ⟨by norm_num [MAX_GAS_init], rfl, by norm_num [MAX_GAS_py]⟩

/-- Claim C1 counterexample: in the BaseContract variant (src/contract.py) an
interface containing two function entries with identical names does NOT fail
construction with a duplicate-function error — construction succeeds, the
second binding silently replacing the first. -/
theorem C1_counterexample :
    exceptIsOk (baseContractInit addrA
      [⟨"function", "foo"⟩, ⟨"function", "foo"⟩] addrB 74523528) = true := by rfl

/-- Claim C1 (amended): in the Contract variant, duplicate bound names —
identical function names in particular — fail construction with the
polymorphism ContractError, and when the bound names plus the handle's
pre-existing attributes are pairwise distinct, construction yields exactly
one bound operation per function entry, in interface order, reachable under
its bound name; in the BaseContract variant duplicates are never detected:
construction succeeds whenever both addresses are valid. -/
theorem C1_amended_thm :
    (∀ (addr : String) (iface : List InterfaceItem) (gas : Nat),
       ethAddrMatch addr = true →
       ¬ (contractAttrs ++ boundFuncNames iface).Nodup →
       contractInit addr iface none gas = .error polymorphismError)
  ∧ (∀ (addr : String) (iface : List InterfaceItem) (gas : Nat),
       ethAddrMatch addr = true →
       (contractAttrs ++ boundFuncNames iface).Nodup →
       contractInit addr iface none gas =
         .ok { commonParams := { toAddr := addr, gas := pyHexNat gas,
                                 fromAddr := none, data := none },
               boundNames := contractAttrs ++ boundFuncNames iface })
  ∧ (∀ (addr sender : String) (iface : List InterfaceItem) (gas : Nat),
       ethAddrMatch addr = true → ethAddrMatch sender = true →
       exceptIsOk (baseContractInit addr iface sender gas) = true) := by
  refine ⟨?_, ?_, ?_⟩
  · intro addr iface gas ha hnd
    rw [contractInit_none_eq addr iface gas ha,
        bindLoop_dup iface contractAttrs contractAttrs_nodup hnd]
  · intro addr iface gas ha hnd
    rw [contractInit_none_eq addr iface gas ha, bindLoop_nodup iface contractAttrs hnd]
  · intro addr sender iface gas ha hs
    simp only [baseContractInit, ha, hs, if_true]
    rfl

/-- Claim C1 witness: the amended theorem applied at concrete inputs — a
duplicated interface rejected by the Contract variant, a singleton interface
bound by it, and the same duplicated interface accepted by BaseContract. -/
theorem C1_amended_witness :
    contractInit addrA [⟨"function", "foo"⟩, ⟨"function", "foo"⟩] none 100 =
      .error polymorphismError ∧
    contractInit addrA fooIface none 100 =
      .ok { commonParams := { toAddr := addrA, gas := pyHexNat 100,
                              fromAddr := none, data := none },
            boundNames := contractAttrs ++ boundFuncNames fooIface } ∧
    exceptIsOk (baseContractInit addrA
      [⟨"function", "foo"⟩, ⟨"function", "foo"⟩] addrB 100) = true :=
  ⟨C1_amended_thm.1 addrA _ 100 (by decide) (by decide),
   C1_amended_thm.2.1 addrA fooIface 100 (by decide) (by decide),
   C1_amended_thm.2.2 addrA addrB _ 100 (by decide) (by decide)⟩

/-- Claim C10: in the Contract variant the bound name of a function entry is
the portion before the first opening parenthesis, and construction fails with
the Polymorphism not supported ContractError whenever some function entry's
bound name collides with a pre-existing attribute of the handle (translator,
rpc_client, common_params, _call, _send, _check_response) or two entries
share a bound name — even when no two full names are identical; on any
successful construction every function entry is reachable under its bound
name. -/
theorem C10_thm :
    (∀ (addr : String) (iface : List InterfaceItem) (gas : Nat),
       ethAddrMatch addr = true →
       ((∃ it ∈ iface, it.type = "function" ∧ pySplitName it.name ∈ contractAttrs) ∨
        ¬ (boundFuncNames iface).Nodup) →
       contractInit addr iface none gas = .error polymorphismError)
  ∧ (∀ (addr : String) (iface : List InterfaceItem) (gas : Nat) (h : ContractHandle),
       contractInit addr iface none gas = .ok h →
       ∀ it ∈ iface, it.type = "function" → pySplitName it.name ∈ h.boundNames) := by
  constructor
  · intro addr iface gas ha hcol
    have hnd : ¬ (contractAttrs ++ boundFuncNames iface).Nodup := by
      intro hcontra
      rcases hcol with ⟨it, hmem, hty, hattr⟩ | hdup
      · exact List.disjoint_of_nodup_append hcontra hattr
          (mem_boundFuncNames hmem hty)
      · exact hdup (List.nodup_append.1 hcontra).2.1
    rw [contractInit_none_eq addr iface gas ha,
        bindLoop_dup iface contractAttrs contractAttrs_nodup hnd]
  · intro addr iface gas h hok it hmem hty
    by_cases ha : ethAddrMatch addr
    · rw [contractInit_none_eq addr iface gas ha] at hok
      cases hb : bindLoop contractAttrs iface with
      | error e => rw [hb] at hok; cases hok
      | ok names =>
          rw [hb] at hok
          cases hok
          have := bindLoop_ok_shape iface contractAttrs names hb
          subst this
          exact List.mem_append.2 (Or.inr (mem_boundFuncNames hmem hty))
    · rw [contractInit_bad_addr addr iface none gas (by simpa using ha)] at hok
      cases hok

/-- Claim C10 witness: a function entry named translator (unique in its
interface) is rejected; two entries foo(uint256) and foo(bool) with distinct
full names but the same bound name are rejected; a successful construction
binds bar(uint256) reachable under the name bar. -/
theorem C10_witness :
    contractInit addrA [⟨"function", "translator"⟩] none 100 =
      .error polymorphismError ∧
    contractInit addrA [⟨"function", "foo(uint256)"⟩, ⟨"function", "foo(bool)"⟩]
      none 100 = .error polymorphismError ∧
    pySplitName "bar(uint256)" ∈
      (ContractHandle.mk { toAddr := addrA, gas := pyHexNat 100, fromAddr := none,
                           data := none }
        (contractAttrs ++ ["bar"])).boundNames :=
  ⟨C10_thm.1 addrA _ 100 (by decide)
     (Or.inl ⟨⟨"function", "translator"⟩, by decide, by decide, by decide⟩),
   C10_thm.1 addrA _ 100 (by decide) (Or.inr (by decide)),
   C10_thm.2 addrA [⟨"function", "bar(uint256)"⟩] 100 _ (by rfl)
     ⟨"function", "bar(uint256)"⟩ (by decide) (by decide)⟩

theorem ethAddrCore_allHex (l : List Char) (hl : l.all hexDigit = true) :
    ethAddrCore l = false := by
  unfold ethAddrCore
  split
  · next rest =>
      exfalso
      have hx : hexDigit 'x' = true := List.all_eq_true.1 hl 'x' (by simp)
      exact absurd hx (by decide)
  · rfl

theorem allHex_not_ethAddrMatch (s : String) (h : s.data.all hexDigit = true) :
    ethAddrMatch s = false := by
  unfold ethAddrMatch
  rw [ethAddrCore_allHex s.data h]
  simp only [Bool.false_or]
  cases hl : s.data.getLast? with
  | none => rfl
  | some c =>
      have hmem : c ∈ s.data := by
        obtain ⟨hne, rfl⟩ := List.mem_getLast?_eq_getLast (l := s.data) (x := c)
          (by rw [hl]; exact rfl)
        exact List.getLast_mem hne
      have hc : hexDigit c = true := List.all_eq_true.1 h c hmem
      have hnl : c ≠ '\n' := by
        intro hcontra
        subst hcontra
        exact absurd hc (by decide)
      simp [hnl]

theorem ethAddrMatch_prefixed (t : String) (hlen : t.length = 40)
    (hhex : t.data.all hexDigit = true) : ethAddrMatch ("0x" ++ t) = true := by
  have hdata : ("0x" ++ t).data = '0' :: 'x' :: t.data := by
    rw [String.data_append]
    rfl
  unfold ethAddrMatch
  rw [hdata]
  have hcore : ethAddrCore ('0' :: 'x' :: t.data) = true := by
    unfold ethAddrCore
    have : t.data.length = 40 := hlen
    simp [this, hhex]
  simp [hcore]

/-- Claim C5 counterexample: a string of exactly forty hexadecimal characters
WITHOUT the leading 0x marker — which the claim says must be accepted — is
rejected at construction by both variants. -/
theorem C5_counterexample :
    bareHex40.length = 40 ∧ bareHex40.data.all hexDigit = true ∧
    exceptIsOk (contractInit bareHex40 [] none 100) = false ∧
    exceptIsOk (baseContractInit bareHex40 [] addrB 100) = false :=
  ⟨rfl, rfl, rfl, rfl⟩

/-- Claim C5 (amended): the leading 0x marker is mandatory.  Construction
succeeds for 0x followed by exactly forty hex characters; a marker-less
string consisting only of hex characters always fails, and any string the
regex rejects fails at construction with a ContractError whose message names
the malformed field (contract or sender) and echoes the offending value. -/
theorem C5_amended_thm :
    (∀ (s : String) (iface : List InterfaceItem) (sender : Option String) (gas : Nat),
       s.data.all hexDigit = true →
       contractInit s iface sender gas = .error (.contractError (errFmt "contract" s)))
  ∧ (∀ (t : String) (gas : Nat), t.length = 40 → t.data.all hexDigit = true →
       exceptIsOk (contractInit ("0x" ++ t) [] none gas) = true)
  ∧ (∀ (addr : String) (iface : List InterfaceItem) (sender : Option String) (gas : Nat),
       ethAddrMatch addr = false →
       contractInit addr iface sender gas =
         .error (.contractError (errFmt "contract" addr)))
  ∧ (∀ (addr s : String) (iface : List InterfaceItem) (gas : Nat),
       ethAddrMatch addr = true → ethAddrMatch s = false →
       contractInit addr iface (some s) gas =
         .error (.contractError (errFmt "sender" s))) := by
  refine ⟨?_, ?_, ?_, ?_⟩
  · intro s iface sender gas hhex
    exact contractInit_bad_addr s iface sender gas (allHex_not_ethAddrMatch s hhex)
  · intro t gas hlen hhex
    rw [contractInit_none_eq ("0x" ++ t) [] gas (ethAddrMatch_prefixed t hlen hhex)]
    rfl
  · intro addr iface sender gas ha
    exact contractInit_bad_addr addr iface sender gas ha
  · intro addr s iface gas ha hs
    exact contractInit_bad_sender addr s iface gas ha hs

/-- Claim C5 witness: the amended theorem applied at concrete inputs — a bare
forty-hex string rejected with a message naming the contract field, a
prefixed forty-hex string accepted, a short 0x1234 rejected, and a malformed
sender rejected with a message naming the sender field. -/
theorem C5_amended_witness :
    contractInit bareHex40 [] none 100 =
      .error (.contractError (errFmt "contract" bareHex40)) ∧
    exceptIsOk (contractInit ("0x" ++ bareHex40) [] none 100) = true ∧
    contractInit "0x1234" [] none 100 =
      .error (.contractError (errFmt "contract" "0x1234")) ∧
    contractInit addrA [] (some "0x1234") 100 =
      .error (.contractError (errFmt "sender" "0x1234")) :=
  ⟨C5_amended_thm.1 bareHex40 [] none 100 (by decide),
   C5_amended_thm.2.1 bareHex40 100 (by decide) (by decide),
   C5_amended_thm.2.2.1 "0x1234" [] none 100 (by decide),
   C5_amended_thm.2.2.2 addrA "0x1234" [] 100 (by decide) (by decide)⟩

/-- Claim C2: a bound operation invoked with the call keyword true is routed
through the node's eth_call endpoint — in every variant, relayed or
self-signed alike — performs exactly that one round trip with no signing, and
returns the translator's decoded value for the function's returned bytes. -/
theorem C2_thm :
    (∀ (tr : Translator) (rpc : RpcClient) (h : ContractHandle) (name : String)
       (args : List Int) (data : List Nat) (r : String) (raw : List Nat),
       tr.encode_function_call name args = .ok data →
       (rpc.eth_call (contractTxFor h data) "latest").error = none →
       (rpc.eth_call (contractTxFor h data) "latest").result = some r →
       pyHexDecode (pyLstrip0x r) = some raw →
       contract_proxy tr rpc h name args true =
         (.ok (tr.decode name raw), [.ethCall (contractTxFor h data) "latest"]))
  ∧ (∀ (tr : Translator) (rpc : RpcClient) (h : BaseHandle) (name : String)
       (args : List Int) (data : List Nat) (r : String) (raw : List Nat),
       tr.encode_function_call name args = .ok data →
       (rpc.eth_call (baseTxFor h data) "latest").result = some r →
       pyHexDecode (pyLstrip0x r) = some raw →
       local_proxy tr rpc h name args true =
         (.ok (tr.decode name raw), [.ethCall (baseTxFor h data) "latest"]))
  ∧ (∀ (tr : Translator) (rpc : RpcClient) (signer : Signer) (h : PublicHandle)
       (name : String) (args : List Int) (data : List Nat) (r : String)
       (raw : List Nat),
       tr.encode_function_call name args = .ok data →
       (rpc.eth_call (baseTxFor h.base data) "latest").result = some r →
       pyHexDecode (pyLstrip0x r) = some raw →
       public_proxy tr rpc signer h name args true =
         (.ok (tr.decode name raw), [.ethCall (baseTxFor h.base data) "latest"])) := by
  refine ⟨?_, ?_, ?_⟩
  · intro tr rpc h name args data r raw henc herr hres hdec
    simp only [contract_proxy, henc, if_true, contract_call, contract_check_response,
      herr, Option.isSome_none, Bool.false_eq_true, if_false, hres, hdec]
  · intro tr rpc h name args data r raw henc hres hdec
    simp only [local_proxy, henc, if_true, base_call_dispatcher, hres, hdec]
  · intro tr rpc signer h name args data r raw henc hres hdec
    simp only [public_proxy, henc, if_true, base_call_dispatcher, hres, hdec]

/-- Claim C2 witness: the theorem applied to stub collaborators on all three
handle kinds — each query is one eth_call round trip returning the decoded
bytes 255, 1 of the stub response 0xff01. -/
theorem C2_witness :
    contract_proxy stubTranslator okRpc stubContractHandle "foo" [1] true =
      (.ok (stubTranslator.decode "foo" [255, 1]),
       [.ethCall (contractTxFor stubContractHandle [1]) "latest"]) ∧
    local_proxy stubTranslator okRpc stubBaseHandle "foo" [1] true =
      (.ok (stubTranslator.decode "foo" [255, 1]),
       [.ethCall (baseTxFor stubBaseHandle [1]) "latest"]) ∧
    public_proxy stubTranslator okRpc stubSigner stubPublicHandle "foo" [1] true =
      (.ok (stubTranslator.decode "foo" [255, 1]),
       [.ethCall (baseTxFor stubBaseHandle [1]) "latest"]) :=
  ⟨C2_thm.1 stubTranslator okRpc stubContractHandle "foo" [1] [1] "0xff01" [255, 1]
     rfl rfl rfl rfl,
   C2_thm.2.1 stubTranslator okRpc stubBaseHandle "foo" [1] [1] "0xff01" [255, 1]
     rfl rfl rfl,
   C2_thm.2.2 stubTranslator okRpc stubSigner stubPublicHandle "foo" [1] [1] "0xff01"
     [255, 1] rfl rfl rfl⟩

/-- Claim C7: when argument encoding fails, every proxy — in all three handle
kinds, on both the query and the transact path — propagates the encoding
error with an EMPTY network trace: no eth_call, no send, and no nonce fetch
happens before encoding succeeds. -/
theorem C7_thm :
    ∀ (tr : Translator) (rpc : RpcClient) (signer : Signer) (hc : ContractHandle)
      (hb : BaseHandle) (hp : PublicHandle) (name : String) (args : List Int)
      (e : PyError) (call : Bool),
      tr.encode_function_call name args = .error e →
      contract_proxy tr rpc hc name args call = (.error e, []) ∧
      local_proxy tr rpc hb name args call = (.error e, []) ∧
      public_proxy tr rpc signer hp name args call = (.error e, []) := by
  intro tr rpc signer hc hb hp name args e call henc
  refine ⟨?_, ?_, ?_⟩ <;>
    simp only [contract_proxy, local_proxy, public_proxy, henc]

/-- Claim C7 witness: a translator that rejects its arguments makes every
proxy fail with that error and an empty network trace, on the transact path
here. -/
theorem C7_witness :
    contract_proxy failTranslator okRpc stubContractHandle "foo" [1] false =
      (.error (.typeError "Error encoding args"), []) ∧
    local_proxy failTranslator okRpc stubBaseHandle "foo" [1] false =
      (.error (.typeError "Error encoding args"), []) ∧
    public_proxy failTranslator okRpc stubSigner stubPublicHandle "foo" [1] false =
      (.error (.typeError "Error encoding args"), []) :=
  C7_thm failTranslator okRpc stubSigner stubContractHandle stubBaseHandle
    stubPublicHandle "foo" [1] (.typeError "Error encoding args") false rfl

/-- Claim C9: in the Contract variant the sender is optional — construction
with sender None succeeds (given a valid contract address and collision-free
interface), the resulting common_params and every per-call transaction record
carry no from field on either path, and sender validation applies only when a
sender is supplied. -/
theorem C9_thm :
    ∀ (addr : String) (iface : List InterfaceItem) (gas : Nat),
      ethAddrMatch addr = true →
      (contractAttrs ++ boundFuncNames iface).Nodup →
      (∃ h : ContractHandle, contractInit addr iface none gas = .ok h ∧
         h.commonParams.fromAddr = none ∧
         ∀ data : List Nat, (contractTxFor h data).fromAddr = none) ∧
      (∀ s : String, ethAddrMatch s = false →
         contractInit addr iface (some s) gas =
           .error (.contractError (errFmt "sender" s))) := by
  intro addr iface gas ha hnd
  constructor
  · refine ⟨{ commonParams := { toAddr := addr, gas := pyHexNat gas,
                                fromAddr := none, data := none },
              boundNames := contractAttrs ++ boundFuncNames iface },
            ?_, rfl, fun _ => rfl⟩
    rw [contractInit_none_eq addr iface gas ha, bindLoop_nodup iface contractAttrs hnd]
  · intro s hs
    exact contractInit_bad_sender addr s iface gas ha hs

/-- Claim C9 witness: the theorem applied at a concrete address and interface,
with a malformed sender for the validation branch. -/
theorem C9_witness :
    (∃ h : ContractHandle, contractInit addrA fooIface none 100 = .ok h ∧
       h.commonParams.fromAddr = none ∧
       ∀ data : List Nat, (contractTxFor h data).fromAddr = none) ∧
    contractInit addrA fooIface (some bareHex40) 100 =
      .error (.contractError (errFmt "sender" bareHex40)) :=
  ⟨(C9_thm addrA fooIface 100 (by decide) (by decide)).1,
   (C9_thm addrA fooIface 100 (by decide) (by decide)).2 bareHex40 (by decide)⟩

/-- Claim C4 counterexample: in the BaseContract variant the query path never
inspects the error field — a response carrying BOTH an error field and a
result field is decoded and returned as a success, instead of raising the
ContractError the claim requires and keeping the response away from decode. -/
theorem C4_counterexample :
    (errRpc.eth_call (baseTxFor stubBaseHandle [1]) "latest").error = some "boom" ∧
    (base_call_dispatcher stubTranslator errRpc stubBaseHandle "foo" [1]).1 =
      .ok (stubTranslator.decode "foo" [255, 1]) :=
  ⟨rfl, rfl⟩

/-- Claim C4 (amended): only the Contract variant checks responses — both its
query and send paths raise ContractError carrying the response whenever an
error field is present, for every translator (so the decode step never
influences the outcome); the BaseContract variant checks nothing: its query
path decodes the result field even when an error field is present, and the
LocalContract send path returns the response unconditionally. -/
theorem C4_amended_thm :
    (∀ (tr : Translator) (rpc : RpcClient) (name : String) (tx : TxRecord)
       (msg : String),
       (rpc.eth_call tx "latest").error = some msg →
       (contract_call tr rpc name tx).1 =
         .error (.contractError ("error response from RPC server: " ++
           reprResponse (rpc.eth_call tx "latest"))))
  ∧ (∀ (rpc : RpcClient) (tx : TxRecord) (msg : String),
       (rpc.eth_sendTransaction tx).error = some msg →
       (contract_send rpc tx).1 =
         .error (.contractError ("error response from RPC server: " ++
           reprResponse (rpc.eth_sendTransaction tx))))
  ∧ (∀ (tr : Translator) (rpc : RpcClient) (h : BaseHandle) (name : String)
       (data : List Nat) (r : String) (raw : List Nat),
       (rpc.eth_call (baseTxFor h data) "latest").result = some r →
       pyHexDecode (pyLstrip0x r) = some raw →
       (base_call_dispatcher tr rpc h name data).1 = .ok (tr.decode name raw))
  ∧ (∀ (rpc : RpcClient) (h : BaseHandle) (data : List Nat),
       (local_send_dispatcher rpc h data).1 =
         .ok (respToValue (rpc.eth_sendTransaction (baseTxFor h data)))) := by
  refine ⟨?_, ?_, ?_, ?_⟩
  · intro tr rpc name tx msg herr
    simp only [contract_call, contract_check_response, herr, Option.isSome_some,
      if_true]
  · intro rpc tx msg herr
    simp only [contract_send, contract_check_response, herr, Option.isSome_some,
      if_true]
  · intro tr rpc h name data r raw hres hdec
    simp only [base_call_dispatcher, hres, hdec]
  · intro rpc h data
    rfl

/-- Claim C4 witness: the amended theorem applied to a stub node that attaches
an error field to every response. -/
theorem C4_amended_witness :
    (contract_call stubTranslator errRpc "foo"
        (contractTxFor stubContractHandle [1])).1 =
      .error (.contractError ("error response from RPC server: " ++
        reprResponse (errRpc.eth_call (contractTxFor stubContractHandle [1])
          "latest"))) ∧
    (contract_send errRpc (contractTxFor stubContractHandle [1])).1 =
      .error (.contractError ("error response from RPC server: " ++
        reprResponse (errRpc.eth_sendTransaction
          (contractTxFor stubContractHandle [1])))) ∧
    (base_call_dispatcher stubTranslator errRpc stubBaseHandle "bar" [1]).1 =
      .ok (stubTranslator.decode "bar" [255, 1]) ∧
    (local_send_dispatcher errRpc stubBaseHandle [1]).1 =
      .ok (respToValue (errRpc.eth_sendTransaction (baseTxFor stubBaseHandle [1]))) :=
  ⟨C4_amended_thm.1 stubTranslator errRpc "foo" _ "boom" rfl,
   C4_amended_thm.2.1 errRpc _ "boom" rfl,
   C4_amended_thm.2.2.1 stubTranslator errRpc stubBaseHandle "bar" [1] "0xff01"
     [255, 1] rfl rfl,
   C4_amended_thm.2.2.2 errRpc stubBaseHandle [1]⟩

/-- Claim C6 counterexample: the LocalContract send path does not return the
transaction hash — it returns the ENTIRE response dictionary, with the hash
left inside its result entry. -/
theorem C6_counterexample :
    (local_send_dispatcher okRpc stubBaseHandle [1]).1 =
      .ok (.dict [("result", .str "0xabc")]) ∧
    PyValue.dict [("result", PyValue.str "0xabc")] ≠ PyValue.str "0xabc" :=
  ⟨rfl, fun hcontra => PyValue.noConfusion hcontra⟩

/-- Claim C6 (amended): both transacting paths return after a single
eth_sendTransaction round trip with no waiting for inclusion, but the shape
differs: the Contract variant returns the result field of the response (the
transaction hash), while the LocalContract variant returns the whole response
dictionary with the hash under its result key. -/
theorem C6_amended_thm :
    (∀ (rpc : RpcClient) (tx : TxRecord) (r : String),
       (rpc.eth_sendTransaction tx).error = none →
       (rpc.eth_sendTransaction tx).result = some r →
       contract_send rpc tx = (.ok (.str r), [.ethSendTransaction tx]))
  ∧ (∀ (rpc : RpcClient) (h : BaseHandle) (data : List Nat),
       local_send_dispatcher rpc h data =
         (.ok (respToValue (rpc.eth_sendTransaction (baseTxFor h data))),
          [.ethSendTransaction (baseTxFor h data)])) := by
  constructor
  · intro rpc tx r herr hres
    simp only [contract_send, contract_check_response, herr, Option.isSome_none,
      Bool.false_eq_true, if_false, hres]
  · intro rpc h data
    rfl

/-- Claim C6 witness: the amended theorem applied to the stub node — the
Contract variant hands back the hash string itself, LocalContract the
enclosing dictionary. -/
theorem C6_amended_witness :
    contract_send okRpc (contractTxFor stubContractHandle [1]) =
      (.ok (.str "0xabc"),
       [.ethSendTransaction (contractTxFor stubContractHandle [1])]) ∧
    local_send_dispatcher okRpc stubBaseHandle [1] =
      (.ok (respToValue (okRpc.eth_sendTransaction (baseTxFor stubBaseHandle [1]))),
       [.ethSendTransaction (baseTxFor stubBaseHandle [1])]) :=
  ⟨C6_amended_thm.1 okRpc (contractTxFor stubContractHandle [1]) "0xabc" rfl rfl,
   C6_amended_thm.2 okRpc stubBaseHandle [1]⟩

/-- Claim C3 (code bug, evaluated at the failing input): on a self-signed
transacting invocation the code performs, in order, the nonce fetch
(eth_getTransactionCount for the sender), the raw transaction build from that
nonce, the fixed gas price of 20 shannon, the configured gas limit, the
target address, zero value and the encoded data, the local signing, and the
RLP serialization to wire hex — but step five evaluates
self.eth_sendRawTransaction, an attribute of the CONTRACT HANDLE rather than
of the RPC client, which does not exist: the invocation dies with
AttributeError and the raw transaction is never broadcast to the node. -/
theorem C3_thm :
    publicContractInit stubPrivtoaddr addrA fooIface
      (.strKey (List.replicate 32 1)) 100 = .ok stubPublicHandle ∧
    public_proxy stubTranslator okRpc stubSigner stubPublicHandle "foo" [1] false =
      (.error (.attributeError "eth_sendRawTransaction"),
       [.ethGetTransactionCount addrB, .buildTx rawTxFoo, .signTx rawTxFoo,
        .rlpSerialize "0x0109"]) :=
  ⟨rfl, rfl⟩
